import Mathlib

/-!
Verification of the spot/perp arbitrage bot in `arb.py` (hyperliquid-agent).

Prices, sizes and notionals are modelled as exact rationals (`ℚ`).
Python's `round(x, n)` (banker's rounding, round-half-to-even) is modelled
by `pyRound`.  The exchange client, quote source and environment are
external; their responses enter the model as explicit inputs.
-/

namespace Arb

/-- Python's `round` to an integer: round half to even (banker's rounding). -/
def pyRoundInt (x : ℚ) : ℤ :=
  let f := ⌊x⌋
  if x - f < 1/2 then f
  else if x - f > 1/2 then f + 1
  else if f % 2 = 0 then f else f + 1

/-- Python's `round(x, n)`: round to `n` decimal places, half to even. -/
def pyRound (x : ℚ) (n : ℕ) : ℚ :=
  (pyRoundInt (x * 10 ^ n) : ℚ) / 10 ^ n

/-- Default `PERP_COIN` from `arb.py` line 29. -/
def PERP_COIN : String := "AAVE"

/-- Default `SPOT_COIN` from `arb.py` line 30. -/
def SPOT_COIN : String := "AAVE/USDC"

/-- Function `spread_bps` from `arb.py` lines 77-78:
`(perp_mid - spot_mid) / spot_mid * 10_000`. -/
def spread_bps (spot_mid perp_mid : ℚ) : ℚ :=
  (perp_mid - spot_mid) / spot_mid * 10000

/-- Trade direction, the `direction` string of `execute_arb`
("cash_carry" or "reverse"). -/
inductive Direction
  | cash_carry
  | reverse
deriving DecidableEq, Repr

/-- The branch structure of `main` lines 154-159: `spread > THRESHOLD_BPS`
picks cash_carry, `elif spread < -THRESHOLD_BPS` picks reverse, else nothing. -/
def decide_direction (THRESHOLD_BPS spread : ℚ) : Option Direction :=
  if spread > THRESHOLD_BPS then some .cash_carry
  else if spread < -THRESHOLD_BPS then some .reverse
  else none

/-- An order submitted through `exchange.order(coin, is_buy, sz, limit_px, IOC)`. -/
structure Order where
  coin : String
  is_buy : Bool
  sz : ℚ
  limit_px : ℚ
deriving DecidableEq, Repr

/-- The `"filled"` entry of a gateway order status:
`spot_status["filled"]` with its `totalSz` field. -/
structure FilledInfo where
  totalSz : ℚ
deriving DecidableEq, Repr

/-- A gateway order status (`result["response"]["data"]["statuses"][0]`),
abstracted to whether it contains a `"filled"` entry and, if so, that entry.
`none` models a status without a `"filled"` key (unfilled / error). -/
def SpotStatus : Type := Option FilledInfo

/-- The filled size a status reports: `totalSz` of its `"filled"` entry,
`0` when there is no `"filled"` entry. -/
def filledSize (st : Option FilledInfo) : ℚ :=
  match st with
  | none => 0
  | some f => f.totalSz

/-- Function `execute_arb` from `arb.py` lines 81-122, with the gateway's response to
the spot order supplied as input `spotStatus`.  Returns the submitted spot
order and, when `"filled"` is present in the spot status, the perp hedge
order (`none` otherwise, matching the early `return spot_result, None`). -/
def execute_arb (SLIPPAGE : ℚ) (direction : Direction)
    (size spot_bid spot_ask perp_mid : ℚ)
    (spotStatus : Option FilledInfo) : Order × Option Order :=
  let px : Bool × Bool × ℚ × ℚ :=
    match direction with
    | .cash_carry =>
        (true, false,
         pyRound (spot_ask * (1 + SLIPPAGE)) 1,
         pyRound (perp_mid * (1 - SLIPPAGE)) 1)
    | .reverse =>
        (false, true,
         pyRound (spot_bid * (1 - SLIPPAGE)) 1,
         pyRound (perp_mid * (1 + SLIPPAGE)) 1)
  let spot_order : Order := ⟨SPOT_COIN, px.1, size, px.2.2.1⟩
  match spotStatus with
  | none => (spot_order, none)
  | some filled =>
      let filled_sz := filled.totalSz
      (spot_order, some ⟨PERP_COIN, px.2.1, filled_sz, px.2.2.2⟩)

/-- The sizing computation of `main` lines 144-145, with the hard-coded
$10 minimum notional generalized to a parameter (`main` uses
`min_notional = 10` and `SIZE_USD` as the target notional):
`min_size = ceil(min_notional / spot_mid * 10**sz_dec) / 10**sz_dec`,
`size = max(round(SIZE_USD / spot_mid, sz_dec), min_size)`. -/
def size_calc (SIZE_USD min_notional spot_mid : ℚ) (sz_dec : ℕ) : ℚ :=
  let min_size : ℚ := (⌈min_notional / spot_mid * 10 ^ sz_dec⌉ : ℚ) / 10 ^ sz_dec
  max (pyRound (SIZE_USD / spot_mid) sz_dec) min_size

/-- The sizing of `main` lines 144-145 exactly as written
(minimum notional literal `10`). -/
def main_size (SIZE_USD spot_mid : ℚ) (sz_dec : ℕ) : ℚ :=
  size_calc SIZE_USD 10 spot_mid sz_dec

/-- The environment-derived configuration of `main` (`arb.py` lines 23-27),
together with the shared size precision `sz_dec = min(perp_sz_dec, spot_sz_dec)`
computed at startup (line 136). -/
structure Config where
  THRESHOLD_BPS : ℚ
  SIZE_USD : ℚ
  POLL_INTERVAL : ℚ
  SLIPPAGE : ℚ
  COOLDOWN : ℚ
  sz_dec : ℕ

/-- Observable events of one scheduler iteration: an order submission to the
gateway, a `time.sleep`, or `log.exception` in the `except` handler. -/
inductive Event
  | order (o : Order)
  | sleep (seconds : ℚ)
  | logged_error (msg : String)
deriving DecidableEq, Repr

/-- The external responses consumed by one loop iteration: what `get_prices`
returns (`spot_bid, spot_ask, perp_mid`; `spot_mid` is computed from them) and
the parsed status of the spot order, if one is submitted.  `Except.error`
models the call raising an exception (network failure, malformed payload). -/
structure CycleInput where
  quotes : Except String (ℚ × ℚ × ℚ)
  spot_status : Except String (Option FilledInfo)

/-- The `try` block of `main`'s loop body (`arb.py` lines 139-159): fetch
prices, compute the spread, compute the size (the first division by
`spot_mid` raises `ZeroDivisionError` when it is zero), then on a triggered
direction run `execute_arb` and sleep the cooldown.  Returns the events of
the block, or the uncaught exception. -/
def try_block (cfg : Config) (inp : CycleInput) : Except String (List Event) :=
  match inp.quotes with
  | .error e => .error e
  | .ok (spot_bid, spot_ask, perp_mid) =>
      let spot_mid := (spot_bid + spot_ask) / 2
      if spot_mid = 0 then .error "ZeroDivisionError"
      else
        let spread := spread_bps spot_mid perp_mid
        let size := main_size cfg.SIZE_USD spot_mid cfg.sz_dec
        match decide_direction cfg.THRESHOLD_BPS spread with
        | some d =>
            match inp.spot_status with
            | .error e => .error e
            | .ok st =>
                let r := execute_arb cfg.SLIPPAGE d size spot_bid spot_ask perp_mid st
                .ok (Event.order r.1 :: (r.2.map Event.order).toList
                      ++ [Event.sleep cfg.COOLDOWN])
        | none => .ok []

/-- One full loop iteration (`arb.py` lines 138-164): the `try` block, the
`except Exception: log.exception(...)` handler, and the unconditional
`time.sleep(POLL_INTERVAL)` after the `try`/`except`. -/
def iteration (cfg : Config) (inp : CycleInput) : List Event :=
  match try_block cfg inp with
  | .ok evs => evs ++ [Event.sleep cfg.POLL_INTERVAL]
  | .error msg => [Event.logged_error msg, Event.sleep cfg.POLL_INTERVAL]

/-- The first `n` iterations of the `while True` loop, fed by a stream of
external responses. -/
def run_loop (cfg : Config) (inputs : ℕ → CycleInput) : ℕ → List Event
  | 0 => []
  | n + 1 => run_loop cfg inputs n ++ iteration cfg (inputs n)

/-- The metadata the `Info` client exposes, as used by `get_sz_decimals`
(`arb.py` lines 46-59): `meta()["universe"]` as (name, szDecimals) pairs,
and the `name_to_coin`, `coin_to_asset`, `asset_to_sz_decimals` maps. -/
structure InfoData where
  universe_assets : List (String × ℕ)
  name_to_coin : List (String × String)
  coin_to_asset : List (String × ℕ)
  asset_to_sz_decimals : List (ℕ × ℕ)

/-- Function `get_sz_decimals` from `arb.py` lines 46-59.  The loop over
`meta["universe"]` leaves `perp_sz_dec = None` when the perp coin is absent;
`spot_asset = coin_to_asset.get(name_to_coin.get(SPOT_COIN, ""), None)`
(a missing spot name looks up the empty string); and
`spot_sz_dec = asset_to_sz_decimals.get(spot_asset, perp_sz_dec)` falls back
to `perp_sz_dec` when the spot asset is not a key (in particular when it is
`None`). -/
def get_sz_decimals (info : InfoData) (perp_coin spot_coin : String) :
    Option ℕ × Option ℕ :=
  let perp_sz_dec : Option ℕ := List.lookup perp_coin info.universe_assets
  let spot_asset : Option ℕ :=
    match List.lookup spot_coin info.name_to_coin with
    | none => List.lookup "" info.coin_to_asset
    | some coin => List.lookup coin info.coin_to_asset
  let spot_sz_dec : Option ℕ :=
    match spot_asset with
    | none => perp_sz_dec
    | some a =>
        match List.lookup a info.asset_to_sz_decimals with
        | some d => some d
        | none => perp_sz_dec
  (perp_sz_dec, spot_sz_dec)

/-- Python's `min(a, b)` on two optional ints (`arb.py` line 136):
comparing `None` with anything raises a `TypeError`. -/
def py_min_opt : Option ℕ → Option ℕ → Except String ℕ
  | some a, some b => .ok (min a b)
  | _, _ => .error "TypeError"

/-- The sizing of `main` lines 144-145 with the `ZeroDivisionError` Python
raises when `spot_mid = 0` made explicit (a negative `spot_mid` raises
nothing). -/
def checked_main_size (SIZE_USD spot_mid : ℚ) (sz_dec : ℕ) : Except String ℚ :=
  if spot_mid = 0 then .error "ZeroDivisionError"
  else .ok (main_size SIZE_USD spot_mid sz_dec)

/-- Scenario B arithmetic: `round(100.05 * 1.001, 1)` is `100.2`. -/
theorem pyRound_scenarioB : pyRound (10015005/100000 : ℚ) 1 = 1002/10 := by
  norm_num [pyRound, pyRoundInt]

/-- C1: for every spot leg result on which a hedge is attempted (the perp
order of `execute_arb` is `some o`), the hedge order's requested size `o.sz`
equals exactly the spot leg's filled quantity and hence never exceeds it. -/
theorem arb_C1_hedge_sized_to_fill (SLIPPAGE : ℚ) (d : Direction)
    (size spot_bid spot_ask perp_mid : ℚ) (st : Option FilledInfo) (o : Order)
    (h : (execute_arb SLIPPAGE d size spot_bid spot_ask perp_mid st).2 = some o) :
    o.sz = filledSize st ∧ o.sz ≤ filledSize st := by
  cases st with
  | none => cases d <;> simp [execute_arb] at h
  | some f =>
      cases d <;> simp [execute_arb] at h <;>
        simp [← h, filledSize]

/-- C1 witness: Scenario C — spot requested size 10, gateway reports a fill
of 5, so the hedge order has size exactly 5. -/
theorem arb_C1_witness :
    (Order.mk PERP_COIN false 5 (pyRound (100 * (1 - 1/1000)) 1)).sz =
        filledSize (some ⟨5⟩) ∧
      (Order.mk PERP_COIN false 5 (pyRound (100 * (1 - 1/1000)) 1)).sz ≤
        filledSize (some ⟨5⟩) :=
  arb_C1_hedge_sized_to_fill (1/1000) .cash_carry 10 100 (10005/100) 100
    (some ⟨5⟩) _ rfl

/-- C2 counterexample: a spot status whose `"filled"` entry reports
`totalSz = 0` has filled size zero, yet `execute_arb` still submits a perp
order (of size 0) — so "filled size zero implies no perp order" fails. -/
theorem arb_C2_counterexample :
    filledSize (some ⟨0⟩) = 0 ∧
    ((execute_arb (1/1000) .cash_carry 10 (999/10) (1001/10) 100
        (some ⟨0⟩)).2).isSome = true := by
  constructor
  · rfl
  · rfl

/-- C2 amended: a perp hedge order is submitted iff the spot status contains
a `"filled"` entry; a status without one yields no perp order, but a
`"filled"` entry with `totalSz = 0` still yields a perp order of size 0. -/
theorem arb_C2_amended (SLIPPAGE : ℚ) (d : Direction)
    (size spot_bid spot_ask perp_mid : ℚ) (st : Option FilledInfo) :
    ((execute_arb SLIPPAGE d size spot_bid spot_ask perp_mid st).2).isSome =
        st.isSome ∧
    (execute_arb SLIPPAGE d size spot_bid spot_ask perp_mid none).2 = none ∧
    ((execute_arb SLIPPAGE d size spot_bid spot_ask perp_mid
        (some ⟨0⟩)).2).map Order.sz = some 0 := by
  refine ⟨?_, ?_, ?_⟩
  · cases st <;> cases d <;> simp [execute_arb]
  · cases d <;> simp [execute_arb]
  · cases d <;> simp [execute_arb]

/-- C10: the hedge limit price is a function of the perp mid and the
slippage fraction alone, fixed before the spot order is submitted: any two
spot leg results produce the same hedge limit price, and that price is
`round(perp_mid * (1 ∓ slippage), 1)` by direction. -/
theorem arb_C10_hedge_price_independent (SLIPPAGE : ℚ) (d : Direction)
    (size spot_bid spot_ask perp_mid : ℚ) (f1 f2 : FilledInfo) :
    ((execute_arb SLIPPAGE d size spot_bid spot_ask perp_mid
        (some f1)).2).map Order.limit_px =
      ((execute_arb SLIPPAGE d size spot_bid spot_ask perp_mid
        (some f2)).2).map Order.limit_px ∧
    ((execute_arb SLIPPAGE d size spot_bid spot_ask perp_mid
        (some f1)).2).map Order.limit_px =
      some (match d with
        | .cash_carry => pyRound (perp_mid * (1 - SLIPPAGE)) 1
        | .reverse => pyRound (perp_mid * (1 + SLIPPAGE)) 1) := by
  cases d <;> simp [execute_arb]

/-- C9 counterexample: with `spotAsk = 100.05` and `slippage = 0.001` the
cash-carry spot buy limit price the code submits is `100.2` (Python
`round(.., 1)` rounds to one decimal place), not the raw `ask * 1.001 =
100.15005` and not the claimed `100.150`. -/
theorem arb_C9_counterexample :
    (execute_arb (1/1000) .cash_carry 10 100 (10005/100) 100
        none).1.limit_px = 1002/10 ∧
    (execute_arb (1/1000) .cash_carry 10 100 (10005/100) 100
        none).1.limit_px ≠ 10005/100 * (1 + 1/1000) ∧
    (execute_arb (1/1000) .cash_carry 10 100 (10005/100) 100
        none).1.limit_px ≠ 10015/100 := by
  have hpx : (execute_arb (1/1000) .cash_carry 10 100 (10005/100) 100
      none).1.limit_px = pyRound (10005/100 * (1 + 1/1000)) 1 := rfl
  have harg : (10005/100 : ℚ) * (1 + 1/1000) = 10015005/100000 := by norm_num
  rw [hpx, harg, pyRound_scenarioB]
  norm_num

/-- C9 amended: the cash-carry spot buy limit price is
`round(ask * (1 + slippage), 1)` and the reverse spot sell limit price is
`round(bid * (1 - slippage), 1)` — rounded half-to-even to one decimal
place, a fixed precision rather than the venue tick size; in Scenario B the
submitted price is therefore `100.2`. -/
theorem arb_C9_amended (SLIPPAGE size spot_bid spot_ask perp_mid : ℚ)
    (st : Option FilledInfo) :
    (execute_arb SLIPPAGE .cash_carry size spot_bid spot_ask perp_mid
        st).1.limit_px = pyRound (spot_ask * (1 + SLIPPAGE)) 1 ∧
    (execute_arb SLIPPAGE .reverse size spot_bid spot_ask perp_mid
        st).1.limit_px = pyRound (spot_bid * (1 - SLIPPAGE)) 1 ∧
    (execute_arb (1/1000) .cash_carry size spot_bid (10005/100) perp_mid
        st).1.limit_px = 1002/10 := by
  refine ⟨?_, ?_, ?_⟩
  · cases st <;> rfl
  · cases st <;> rfl
  · have harg : (10005/100 : ℚ) * (1 + 1/1000) = 10015005/100000 := by norm_num
    cases st <;>
      · show pyRound (10005/100 * (1 + 1/1000)) 1 = 1002/10
        rw [harg, pyRound_scenarioB]

/-- C3: with a nonnegative threshold, the scheduler triggers cash-carry
exactly when the spread reading strictly exceeds `+threshold`, reverse
exactly when it is strictly below `-threshold`, and nothing otherwise;
Scenario A gives reading `+20` and triggers cash-carry, and a reading of
`+5` against threshold `10` triggers nothing. -/
theorem arb_C3_threshold_classification (T s : ℚ) (hT : 0 ≤ T) :
    (decide_direction T s = some .cash_carry ↔ T < s) ∧
    (decide_direction T s = some .reverse ↔ s < -T) ∧
    (decide_direction T s = none ↔ (-T ≤ s ∧ s ≤ T)) ∧
    spread_bps 100 (1002/10) = 20 ∧
    decide_direction 10 20 = some .cash_carry ∧
    decide_direction 10 5 = none := by
  have hcc : decide_direction T s = some Direction.cash_carry ↔ T < s := by
    by_cases h1 : T < s
    · simp [decide_direction, h1]
    · simp only [decide_direction, h1, if_false, gt_iff_lt, iff_false]
      split_ifs <;> simp
  have hrev : decide_direction T s = some Direction.reverse ↔ s < -T := by
    by_cases h2 : s < -T
    · have h1 : ¬ T < s := by linarith
      simp [decide_direction, h1, h2]
    · by_cases h1 : T < s
      · simp [decide_direction, h1, h2]
      · simp [decide_direction, h1, h2]
  have hnone : decide_direction T s = none ↔ (-T ≤ s ∧ s ≤ T) := by
    by_cases h1 : T < s
    · simp only [decide_direction, h1, gt_iff_lt, if_true]
      constructor
      · intro hx
        cases hx
      · intro hx
        linarith [hx.2]
    · by_cases h2 : s < -T
      · simp only [decide_direction, h1, h2, gt_iff_lt, if_false, if_true]
        constructor
        · intro hx
          cases hx
        · intro hx
          linarith [hx.1]
      · simp only [decide_direction, h1, h2, gt_iff_lt, if_false]
        constructor
        · intro _
          constructor <;> linarith
        · intro _
          trivial
  refine ⟨hcc, hrev, hnone, ?_, ?_, ?_⟩
  · norm_num [spread_bps]
  · norm_num [decide_direction]
  · norm_num [decide_direction]

/-- C3 witness: threshold 10, reading 20 triggers cash-carry. -/
theorem arb_C3_witness :
    decide_direction 10 20 = some Direction.cash_carry :=
  (arb_C3_threshold_classification 10 20 (by norm_num)).2.2.2.2.1

/-- C4: with `spot_mid > 0` the spread reading equals
`(perp_mid - spot_mid) / spot_mid * 10000`, its sign matches the sign of
`perp_mid - spot_mid`, and its magnitude is the price gap scaled by the
constant positive factor `10000 / spot_mid` (linear in the gap). -/
theorem arb_C4_spread_sign_linear (spot_mid perp_mid : ℚ) (h : 0 < spot_mid) :
    spread_bps spot_mid perp_mid = (perp_mid - spot_mid) / spot_mid * 10000 ∧
    (0 < spread_bps spot_mid perp_mid ↔ spot_mid < perp_mid) ∧
    (spread_bps spot_mid perp_mid < 0 ↔ perp_mid < spot_mid) ∧
    (spread_bps spot_mid perp_mid = 0 ↔ perp_mid = spot_mid) ∧
    |spread_bps spot_mid perp_mid| = |perp_mid - spot_mid| * (10000 / spot_mid) := by
  have key : spread_bps spot_mid perp_mid =
      (perp_mid - spot_mid) * (10000 / spot_mid) := by
    unfold spread_bps; ring
  have hpos : (0:ℚ) < 10000 / spot_mid := by positivity
  refine ⟨rfl, ?_, ?_, ?_, ?_⟩
  · rw [key]
    constructor
    · intro hx
      by_contra hc
      push_neg at hc
      nlinarith
    · intro hx
      have : 0 < perp_mid - spot_mid := by linarith
      positivity
  · rw [key]
    constructor
    · intro hx
      by_contra hc
      push_neg at hc
      nlinarith
    · intro hx
      have h1 : perp_mid - spot_mid < 0 := by linarith
      exact mul_neg_of_neg_of_pos h1 hpos
  · rw [key, mul_eq_zero]
    constructor
    · intro hx
      rcases hx with hx | hx
      · linarith [sub_eq_zero.mp hx]
      · exact absurd hx (ne_of_gt hpos)
    · intro hx
      left
      rw [hx]
      ring
  · rw [key, abs_mul, abs_of_pos hpos]

/-- C4 witness: Scenario A snapshot, spot mid 100, perp mid 100.20. -/
theorem arb_C4_witness :
    0 < spread_bps 100 (1002/10) ↔ (100:ℚ) < 1002/10 :=
  (arb_C4_spread_sign_linear 100 (1002/10) (by norm_num)).2.1

/-- C5: with `spot_mid > 0` the computed size is
`max(round(target / spot_mid, prec), ceil(min_notional / spot_mid * 10^prec) / 10^prec)`;
consequently `size * spot_mid ≥ min_notional` and the size is representable
with `prec` decimal places (an integer multiple of `10^-prec`). -/
theorem arb_C5_size_formula (SIZE_USD min_notional spot_mid : ℚ) (sz_dec : ℕ)
    (h : 0 < spot_mid) :
    size_calc SIZE_USD min_notional spot_mid sz_dec =
      max (pyRound (SIZE_USD / spot_mid) sz_dec)
        ((⌈min_notional / spot_mid * 10 ^ sz_dec⌉ : ℚ) / 10 ^ sz_dec) ∧
    min_notional ≤ size_calc SIZE_USD min_notional spot_mid sz_dec * spot_mid ∧
    ∃ k : ℤ, size_calc SIZE_USD min_notional spot_mid sz_dec =
      (k : ℚ) / 10 ^ sz_dec := by
  have hp : (0:ℚ) < 10 ^ sz_dec := by positivity
  have hdef : size_calc SIZE_USD min_notional spot_mid sz_dec =
      max (pyRound (SIZE_USD / spot_mid) sz_dec)
        ((⌈min_notional / spot_mid * 10 ^ sz_dec⌉ : ℚ) / 10 ^ sz_dec) := rfl
  refine ⟨hdef, ?_, ?_⟩
  · have h1 : min_notional / spot_mid * 10 ^ sz_dec ≤
        (⌈min_notional / spot_mid * 10 ^ sz_dec⌉ : ℚ) := Int.le_ceil _
    have h2 : min_notional / spot_mid ≤
        (⌈min_notional / spot_mid * 10 ^ sz_dec⌉ : ℚ) / 10 ^ sz_dec := by
      rw [le_div_iff₀ hp]
      exact h1
    have h3 : min_notional / spot_mid ≤
        size_calc SIZE_USD min_notional spot_mid sz_dec := by
      rw [hdef]
      exact le_trans h2 (le_max_right _ _)
    calc min_notional = min_notional / spot_mid * spot_mid := by
          field_simp
      _ ≤ size_calc SIZE_USD min_notional spot_mid sz_dec * spot_mid :=
          mul_le_mul_of_nonneg_right h3 (le_of_lt h)
  · refine ⟨max (pyRoundInt (SIZE_USD / spot_mid * 10 ^ sz_dec))
      ⌈min_notional / spot_mid * 10 ^ sz_dec⌉, ?_⟩
    rw [hdef]
    show (pyRoundInt (SIZE_USD / spot_mid * 10 ^ sz_dec) : ℚ) / 10 ^ sz_dec ⊔
        (⌈min_notional / spot_mid * 10 ^ sz_dec⌉ : ℚ) / 10 ^ sz_dec = _
    rw [max_div_div_right (le_of_lt hp), Int.cast_max]

/-- C5 witness: target $1000, $10 minimum, spot mid 100, precision 2:
the notional of the computed size is at least the minimum. -/
theorem arb_C5_witness :
    (10:ℚ) ≤ size_calc 1000 10 100 2 * 100 :=
  (arb_C5_size_formula 1000 10 100 2 (by norm_num)).2.1

/-- C6: on a cycle with a valid quote (nonzero spot mid) and a gateway
response, if a direction is triggered the iteration's trace ends with the
cooldown sleep followed by the poll sleep, for every spot leg outcome
(filled, partially filled, or unfilled alike); if no direction is triggered
the trace is just the poll sleep. -/
theorem arb_C6_cooldown_unconditional (cfg : Config)
    (spot_bid spot_ask perp_mid : ℚ) (st : Option FilledInfo)
    (hmid : (spot_bid + spot_ask) / 2 ≠ 0) :
    (∀ d, decide_direction cfg.THRESHOLD_BPS
          (spread_bps ((spot_bid + spot_ask) / 2) perp_mid) = some d →
        ∃ orders,
          iteration cfg ⟨.ok (spot_bid, spot_ask, perp_mid), .ok st⟩ =
            orders ++ [Event.sleep cfg.COOLDOWN, Event.sleep cfg.POLL_INTERVAL]) ∧
    (decide_direction cfg.THRESHOLD_BPS
          (spread_bps ((spot_bid + spot_ask) / 2) perp_mid) = none →
        iteration cfg ⟨.ok (spot_bid, spot_ask, perp_mid), .ok st⟩ =
          [Event.sleep cfg.POLL_INTERVAL]) := by
  constructor
  · intro d hd
    refine ⟨Event.order (execute_arb cfg.SLIPPAGE d
        (main_size cfg.SIZE_USD ((spot_bid + spot_ask) / 2) cfg.sz_dec)
        spot_bid spot_ask perp_mid st).1 ::
      ((execute_arb cfg.SLIPPAGE d
        (main_size cfg.SIZE_USD ((spot_bid + spot_ask) / 2) cfg.sz_dec)
        spot_bid spot_ask perp_mid st).2.map Event.order).toList, ?_⟩
    simp [iteration, try_block, hmid, hd]
  · intro hd
    simp [iteration, try_block, hmid, hd]

/-- C6 witness: a triggered cycle (spread 200 bps > threshold 10) whose spot
leg is wholly unfilled still sleeps the 30-second cooldown before the
1-second poll sleep. -/
theorem arb_C6_witness :
    ∃ orders,
      iteration ⟨10, 1000, 1, 1/1000, 30, 2⟩ ⟨.ok (100, 100, 102), .ok none⟩ =
        orders ++ [Event.sleep 30, Event.sleep 1] :=
  (arb_C6_cooldown_unconditional ⟨10, 1000, 1, 1/1000, 30, 2⟩ 100 100 102 none
      (by norm_num)).1 Direction.cash_carry
    (by norm_num [decide_direction, spread_bps])

/-- C7: an exception anywhere in the try block (quote fetch, spread, sizing,
execution) is caught and logged, the iteration still ends with the poll
sleep, every iteration's trace ends with the poll sleep whatever the
external responses, and the loop completes all `n` iterations (at least `n`
events) on any input stream — a failed iteration never terminates it. -/
theorem arb_C7_error_isolation (cfg : Config) (inputs : ℕ → CycleInput)
    (n : ℕ) :
    (∀ inp msg, try_block cfg inp = .error msg →
        iteration cfg inp =
          [Event.logged_error msg, Event.sleep cfg.POLL_INTERVAL]) ∧
    (∀ inp, ∃ evs,
        iteration cfg inp = evs ++ [Event.sleep cfg.POLL_INTERVAL]) ∧
    n ≤ (run_loop cfg inputs n).length := by
  have hiter : ∀ inp, ∃ evs,
      iteration cfg inp = evs ++ [Event.sleep cfg.POLL_INTERVAL] := by
    intro inp
    cases hb : try_block cfg inp with
    | ok evs => exact ⟨evs, by simp [iteration, hb]⟩
    | error msg => exact ⟨[Event.logged_error msg], by simp [iteration, hb]⟩
  refine ⟨?_, hiter, ?_⟩
  · intro inp msg hb
    simp [iteration, hb]
  · induction n with
    | zero => simp [run_loop]
    | succ k ih =>
        have hlen : 1 ≤ (iteration cfg (inputs k)).length := by
          obtain ⟨evs, he⟩ := hiter (inputs k)
          rw [he]
          simp
        simp only [run_loop, List.length_append]
        omega

/-- C7 witness: a quote fetch that raises is logged and followed by the poll
sleep. -/
theorem arb_C7_witness :
    iteration ⟨10, 1000, 1, 1/1000, 30, 2⟩ ⟨.error "ConnectionError", .ok none⟩ =
      [Event.logged_error "ConnectionError", Event.sleep 1] :=
  (arb_C7_error_isolation ⟨10, 1000, 1, 1/1000, 30, 2⟩
      (fun _ => ⟨.error "ConnectionError", .ok none⟩) 0).1
    ⟨.error "ConnectionError", .ok none⟩ "ConnectionError" rfl

/-- Python's `min(None, x)` raises `TypeError` whatever `x` is. -/
theorem py_min_opt_none_left (x : Option ℕ) :
    py_min_opt none x = .error "TypeError" := by
  cases x <;> rfl

/-- C8 counterexample: venue metadata where the perp coin resolves
(szDecimals 3) but the spot coin is absent: `get_sz_decimals` silently
falls back to the perp precision and `min` succeeds — no error — and a
negative spot mid raises no sizing error either, contradicting "fails
whenever a symbol is not found or spotMid ≤ 0". -/
theorem arb_C8_counterexample :
    List.lookup SPOT_COIN
        (InfoData.mk [(PERP_COIN, 3)] [] [] []).name_to_coin = none ∧
    get_sz_decimals ⟨[(PERP_COIN, 3)], [], [], []⟩ PERP_COIN SPOT_COIN =
      (some 3, some 3) ∧
    py_min_opt
      (get_sz_decimals ⟨[(PERP_COIN, 3)], [], [], []⟩ PERP_COIN SPOT_COIN).1
      (get_sz_decimals ⟨[(PERP_COIN, 3)], [], [], []⟩ PERP_COIN SPOT_COIN).2 =
      .ok 3 ∧
    checked_main_size 1000 (-100) 3 = .ok (main_size 1000 (-100) 3) := by
  refine ⟨rfl, rfl, rfl, ?_⟩
  unfold checked_main_size
  rw [if_neg (by norm_num)]

/-- C8 amended: when both symbols resolve, the precision used is the
minimum of the two legs' decimals; when the perp symbol is missing, the
`min` raises a `TypeError`; when the spot symbol is missing, the spot
precision silently falls back to the perp's instead of failing; sizing
raises `ZeroDivisionError` exactly when the spot mid is zero (a negative
spot mid raises nothing). -/
theorem arb_C8_amended (info : InfoData) (pd sd : ℕ)
    (SIZE_USD spot_mid : ℚ) (sz_dec : ℕ) :
    (get_sz_decimals info PERP_COIN SPOT_COIN = (some pd, some sd) →
      py_min_opt (get_sz_decimals info PERP_COIN SPOT_COIN).1
        (get_sz_decimals info PERP_COIN SPOT_COIN).2 = .ok (min pd sd)) ∧
    (List.lookup PERP_COIN info.universe_assets = none →
      py_min_opt (get_sz_decimals info PERP_COIN SPOT_COIN).1
        (get_sz_decimals info PERP_COIN SPOT_COIN).2 = .error "TypeError") ∧
    (List.lookup SPOT_COIN info.name_to_coin = none →
      List.lookup "" info.coin_to_asset = none →
      (get_sz_decimals info PERP_COIN SPOT_COIN).2 =
        (get_sz_decimals info PERP_COIN SPOT_COIN).1) ∧
    (spot_mid = 0 →
      checked_main_size SIZE_USD spot_mid sz_dec = .error "ZeroDivisionError") ∧
    (spot_mid ≠ 0 →
      checked_main_size SIZE_USD spot_mid sz_dec =
        .ok (main_size SIZE_USD spot_mid sz_dec)) := by
  refine ⟨?_, ?_, ?_, ?_, ?_⟩
  · intro hx
    rw [hx]
    rfl
  · intro hperp
    have h1 : (get_sz_decimals info PERP_COIN SPOT_COIN).1 = none := by
      simp [get_sz_decimals, hperp]
    rw [h1, py_min_opt_none_left]
  · intro hspot hempty
    simp [get_sz_decimals, hspot, hempty]
  · intro hx
    simp [checked_main_size, hx]
  · intro hx
    simp [checked_main_size, hx]

/-- C8 witness: metadata resolving the perp to 3 decimals and the spot to 2:
the shared precision is `min 3 2 = 2`. -/
theorem arb_C8_witness :
    py_min_opt
      (get_sz_decimals
        ⟨[(PERP_COIN, 3)], [(SPOT_COIN, "c1")], [("c1", 7)], [(7, 2)]⟩
        PERP_COIN SPOT_COIN).1
      (get_sz_decimals
        ⟨[(PERP_COIN, 3)], [(SPOT_COIN, "c1")], [("c1", 7)], [(7, 2)]⟩
        PERP_COIN SPOT_COIN).2 = .ok (min 3 2) :=
  (arb_C8_amended
      ⟨[(PERP_COIN, 3)], [(SPOT_COIN, "c1")], [("c1", 7)], [(7, 2)]⟩
      3 2 1000 100 2).1 rfl

end Arb
